import Mathlib

/-!
# Verification of the Pi Cycle indicator engine (2-pi-cycle-indicator.cpp)

Shallow embedding of the rolling-statistics indicator engine of the
binance-klines repository.  The C++ `double` arithmetic is modelled as exact
real arithmetic over `ℝ` (the spec states its numeric properties as exact
identities up to floating-point tolerance, so the idealized real model is the
intended semantics); `std::sqrt` is `Real.sqrt`; `std::vector` is `List`;
in-place mutation passes over the row vector become length-preserving maps
that read from the pass's input list exactly where the C++ loop reads fields
the pass itself never writes.

Sources embedded:
* `struct Kline`, `struct PiCycleData` (data model);
* `price_projection` (Window Statistics Engine, lines 189-215);
* `add_calculated_fields` (Derived Field Calculator, lines 218-257),
  split into its four sequential loops;
* the zone/colour classification in `display_public` (lines 329-347),
  extracted as a pure function of (price, median, ceiling, floor);
* the pure numeric core of `prediction_target_step` (lines 393-425)
  together with the `first_row_*` global variables that `display_public`
  writes and `prediction_target_step` reads.
-/

namespace PiCycle

/-- The C++ `struct Kline { std::string date; double price; }`. -/
structure Kline where
  date : String
  price : ℝ

instance : Inhabited Kline := ⟨⟨"", 0⟩⟩

/-- The C++ `struct PiCycleData`: one indicator row.  Every numeric field is
value-initialized to `0.0` in the C++ struct, which the `default` below
mirrors. -/
structure PiCycleData where
  date : String := ""
  price : ℝ := 0
  ma_365 : ℝ := 0
  std_365 : ℝ := 0
  ceiling : ℝ := 0
  floor : ℝ := 0
  median : ℝ := 0
  dynamic_step : ℝ := 0
  step : ℝ := 0
  change : ℝ := 0
  move : ℝ := 0
  offset : ℝ := 0
  weeks_52 : ℝ := 0

instance : Inhabited PiCycleData := ⟨{}⟩

/-- Value `sum_price / 365.0` of the loop at lines 197-201: the trailing
365-sample moving average over `j = i-364 .. i`. -/
noncomputable def maOf (klines : List Kline) (i : ℕ) : ℝ :=
  (∑ j ∈ Finset.Icc (i - 364) i, (klines.getD j default).price) / 365

/-- Value `std::sqrt(sum_sq_diff / 365.0)` of the loop at lines 203-207: the
population standard deviation over the same window. -/
noncomputable def sdOf (klines : List Kline) (i : ℕ) : ℝ :=
  Real.sqrt ((∑ j ∈ Finset.Icc (i - 364) i, ((klines.getD j default).price - maOf klines i) ^ 2) / 365)

/-- The row `price_projection` builds at index `i`:
`date`/`price` are copied from `klines[i]`; when `i >= 364` the fields
`ma_365 = maOf`, `std_365 = sdOf`, `ceiling = ma + 2*std`, `floor = ma`,
`median = (ceiling+floor)/2` are filled in; otherwise those fields keep
their zero initialization. -/
noncomputable def projRow (klines : List Kline) (i : ℕ) : PiCycleData :=
  if 364 ≤ i then
    { date := (klines.getD i default).date
      price := (klines.getD i default).price
      ma_365 := maOf klines i
      std_365 := sdOf klines i
      ceiling := maOf klines i + 2 * sdOf klines i
      floor := maOf klines i
      median := (maOf klines i + 2 * sdOf klines i + maOf klines i) / 2 }
  else
    { date := (klines.getD i default).date
      price := (klines.getD i default).price }

/-- The C++ `price_projection(klines, yearly_multiplier)` (the `yearly_multiplier`
argument is accepted and never used, exactly as in the C++). -/
noncomputable def price_projection (klines : List Kline) (yearly_multiplier : ℝ) :
    List PiCycleData :=
  (List.range klines.length).map (projRow klines)

/-- First loop of `add_calculated_fields` (lines 220-225): for `i ≥ 1` set
`change = price[i] - price[i-1]` and, when the previous price is nonzero,
`move = (price[i]-price[i-1])/price[i-1]*100`.  The loop reads only `price`
fields, which it never writes, so reading from the input list is faithful. -/
noncomputable def add_change_move (l : List PiCycleData) : List PiCycleData :=
  (List.range l.length).map (fun i =>
    let r := l.getD i default
    if 1 ≤ i then
      let prev := l.getD (i - 1) default
      if prev.price ≠ 0 then
        { r with
          change := r.price - prev.price
          move := (r.price - prev.price) / prev.price * 100 }
      else
        { r with change := r.price - prev.price }
    else r)

/-- Second loop of `add_calculated_fields` (lines 227-238): for
`i ≥ lookback_days_for_step = 364` set
`dynamic_step = (Σ_{j=0}^{363} change[i-j])/364`, and for every `i` set
`step = dynamic_step`.  The loop reads only `change` fields, which it never
writes, so reading from the input list is faithful. -/
noncomputable def add_dynamic_step (l : List PiCycleData) : List PiCycleData :=
  (List.range l.length).map (fun i =>
    let r := l.getD i default
    if 364 ≤ i then
      let ds : ℝ := (∑ j ∈ Finset.range 364, (l.getD (i - j) default).change) / 364
      { r with dynamic_step := ds, step := ds }
    else
      { r with step := r.dynamic_step })

/-- Third loop of `add_calculated_fields` (lines 241-245): when `median ≠ 0`
set `offset = (price - median)/median*100`. -/
noncomputable def add_offset (l : List PiCycleData) : List PiCycleData :=
  l.map (fun r =>
    if r.median ≠ 0 then
      { r with offset := (r.price - r.median) / r.median * 100 }
    else r)

/-- Fourth loop of `add_calculated_fields` (lines 248-254): for `i ≥ 364`
with `price[i-364] ≠ 0` set
`weeks_52 = (price[i] - price[i-364])/price[i-364]*100`. -/
noncomputable def add_weeks_52 (l : List PiCycleData) : List PiCycleData :=
  (List.range l.length).map (fun i =>
    let r := l.getD i default
    if 364 ≤ i then
      let old := l.getD (i - 364) default
      if old.price ≠ 0 then
        { r with weeks_52 := (r.price - old.price) / old.price * 100 }
      else r
    else r)

/-- The C++ `add_calculated_fields(pi_data, num_display_days)`: the four loops run in
sequence over the whole vector (the `num_display_days` argument is unused in
the C++ body). -/
noncomputable def add_calculated_fields (l : List PiCycleData) (num_display_days : ℕ) :
    List PiCycleData :=
  add_weeks_52 (add_offset (add_dynamic_step (add_change_move l)))

/-- The composition `main` runs (lines 482-483): Window Statistics Engine
followed by the Derived Field Calculator. -/
noncomputable def engine (klines : List Kline) (yearly_multiplier : ℝ)
    (num_display_days : ℕ) : List PiCycleData :=
  add_calculated_fields (price_projection klines yearly_multiplier) num_display_days

/-- The nine display zones of `display_public`, named after the ANSI colours
the C++ assigns. -/
inductive Zone
  | brightGreen
  | green
  | darkGreen
  | yellowGreen
  | yellow
  | yellowRed
  | darkRed
  | red
  | brightRed
deriving DecidableEq

/-- The colour/zone classification of `display_public` (lines 329-347),
extracted as a pure function of the row fields it reads. -/
noncomputable def classify (price median ceiling flr : ℝ) : Zone :=
  let median_threshold := median * 0.02
  if |price - median| ≤ median_threshold then
    if price > median then Zone.yellowGreen
    else if price < median then Zone.yellowRed
    else Zone.yellow
  else if price ≥ median then
    let range_above := ceiling - median
    let percentage_above := if range_above > 0 then (price - median) / range_above else 0
    if percentage_above ≥ 0.575 then Zone.brightGreen
    else if percentage_above ≥ 0.29 then Zone.green
    else Zone.darkGreen
  else
    let range_below := median - flr
    let percentage_below := if range_below > 0 then (median - price) / range_below else 0
    if percentage_below ≥ 0.575 then Zone.brightRed
    else if percentage_below ≥ 0.29 then Zone.red
    else Zone.darkRed

/-- The Zone Classifier contract as worded in the specification (step 1:
within 2% of the median pick a near-median zone by the sign of
`price - median`; step 2: above the median use
`frac = (price-median)/(ceiling-median)` when `ceiling > median`, else
`frac = 0`, with thresholds 0.575 and 0.29; step 3: symmetric below).  Stated
separately from `classify` so the code's rule can be compared against it. -/
noncomputable def zoneSpec (price median ceiling flr : ℝ) : Zone :=
  let band := |price - median|
  if band ≤ 0.02 * median then
    if price > median then Zone.yellowGreen
    else if price < median then Zone.yellowRed
    else Zone.yellow
  else if price ≥ median then
    let frac := if ceiling > median then (price - median) / (ceiling - median) else 0
    if frac ≥ 0.575 then Zone.brightGreen
    else if frac ≥ 0.29 then Zone.green
    else Zone.darkGreen
  else
    let frac := if median > flr then (median - price) / (median - flr) else 0
    if frac ≥ 0.575 then Zone.brightRed
    else if frac ≥ 0.29 then Zone.red
    else Zone.darkRed

/-- The mirror pairing of the nine-level zone scale: each above-median zone
pairs with the below-median zone of the same intensity. -/
def mirrorZone : Zone → Zone
  | Zone.brightGreen => Zone.brightRed
  | Zone.green => Zone.red
  | Zone.darkGreen => Zone.darkRed
  | Zone.yellowGreen => Zone.yellowRed
  | Zone.yellow => Zone.yellow
  | Zone.yellowRed => Zone.yellowGreen
  | Zone.darkRed => Zone.darkGreen
  | Zone.red => Zone.green
  | Zone.brightRed => Zone.brightGreen

/-- The four `first_row_*` global variables. -/
structure Globals where
  first_row_yearly_value : ℝ
  first_row_baseline : ℝ
  first_row_avg_price : ℝ
  first_row_step : ℝ

/-- Their file-scope initializers (`= 0.00`). -/
def init_globals : Globals := ⟨0, 0, 0, 0⟩

/-- The effect of `display_public` on the globals (lines 318-324): when the
reversed row list is nonempty, capture the first row's fields. -/
noncomputable def display_public_globals (g : Globals) (rows : List PiCycleData) : Globals :=
  match rows with
  | [] => g
  | first_row :: _ =>
    { first_row_yearly_value := first_row.weeks_52
      first_row_baseline := first_row.median
      first_row_avg_price := first_row.price
      first_row_step := first_row.step }

/-- The smoothed drift of `prediction_target_step` (lines 394-404): sum the
`step` fields of the first `i < RANGE && i < size` rows (`RANGE = 30`), count
them, and divide, with `0.0` when the count is zero. -/
noncomputable def average_top_steps (rows : List PiCycleData) : ℝ :=
  if 0 < min 30 rows.length then
    (∑ i ∈ Finset.range (min 30 rows.length), (rows.getD i default).step) /
      (min 30 rows.length)
  else 0

/-- Line 425, `predicted_price_4w = first_row_baseline + average_top_steps * RANGE`
(line 425), reading the baseline from the globals. -/
noncomputable def predicted_price_4w (g : Globals) (rows : List PiCycleData) : ℝ :=
  g.first_row_baseline + average_top_steps rows * 30

/-- The engine proper (stages 2-3 of the pipeline): `price_projection`
followed by `add_calculated_fields`, as called from `main` (lines 482-483).
Neither function reads or writes the `first_row_*` globals, so the global
state passes through unchanged. -/
noncomputable def run_engine (g : Globals) (klines : List Kline)
    (yearly_multiplier : ℝ) (num_display_days : ℕ) : Globals × List PiCycleData :=
  (g, engine klines yearly_multiplier num_display_days)

/-! ## Derived accessors and concrete inputs used in the statements -/

/-- Value `sum_daily_diff / lookback_days_for_step` of lines 231-235. -/
noncomputable def dsSum (l : List PiCycleData) (i : ℕ) : ℝ :=
  (∑ j ∈ Finset.range 364, (l.getD (i - j) default).change) / 364

/-- The day-over-day change the first calculator loop stores at index `k`:
`price[k] - price[k-1]` for `k ≥ 1`, and the zero initialization for the
first row. -/
noncomputable def chg (klines : List Kline) (k : ℕ) : ℝ :=
  if 1 ≤ k then (klines.getD k default).price - (klines.getD (k - 1) default).price else 0

/-- Row `i` of the Window Statistics Engine output. -/
noncomputable def rowAt (klines : List Kline) (ym : ℝ) (i : ℕ) : PiCycleData :=
  (price_projection klines ym).getD i default

/-- Row `i` of the full engine output (`price_projection` then
`add_calculated_fields`). -/
noncomputable def engineRowAt (klines : List Kline) (ym : ℝ) (nd : ℕ) (i : ℕ) :
    PiCycleData :=
  (engine klines ym nd).getD i default

/-- The 365-sample price window `prices[i-364 .. i]`. -/
noncomputable def window365 (klines : List Kline) (i : ℕ) : List ℝ :=
  ((klines.map Kline.price).drop (i - 364)).take 365

/-- A concrete 365-day constant price series used as witness input. -/
noncomputable def klinesW : List Kline := List.replicate 365 { date := "", price := 100 }

/-- A concrete 365-day input with nonzero dispersion: 73 days at price 5 then
292 days at price 0 (window mean 1, population variance 4, standard
deviation 2). -/
noncomputable def klinesCE : List Kline :=
  List.replicate 73 { date := "", price := 5 } ++ List.replicate 292 { date := "", price := 0 }

/-! ## Basic indexing lemmas -/

theorem getD_map_range {α : Type} [Inhabited α] (f : ℕ → α) {n i : ℕ} (h : i < n) :
    ((List.range n).map f).getD i default = f i := by
  rw [List.getD_eq_getElem _ _ (by simpa using h)]
  simp

theorem price_projection_length (klines : List Kline) (ym : ℝ) :
    (price_projection klines ym).length = klines.length := by
  simp [price_projection]

theorem price_projection_getD (klines : List Kline) (ym : ℝ) {i : ℕ}
    (h : i < klines.length) :
    (price_projection klines ym).getD i default = projRow klines i :=
  getD_map_range _ h

theorem add_change_move_length (l : List PiCycleData) :
    (add_change_move l).length = l.length := by
  simp [add_change_move]

theorem add_dynamic_step_length (l : List PiCycleData) :
    (add_dynamic_step l).length = l.length := by
  simp [add_dynamic_step]

theorem add_offset_length (l : List PiCycleData) :
    (add_offset l).length = l.length := by
  simp [add_offset]

theorem add_weeks_52_length (l : List PiCycleData) :
    (add_weeks_52 l).length = l.length := by
  simp [add_weeks_52]

theorem engine_length (klines : List Kline) (ym : ℝ) (nd : ℕ) :
    (engine klines ym nd).length = klines.length := by
  simp [engine, add_calculated_fields, add_weeks_52_length, add_offset_length,
    add_dynamic_step_length, add_change_move_length, price_projection_length]

theorem add_change_move_getD (l : List PiCycleData) {i : ℕ} (h : i < l.length) :
    (add_change_move l).getD i default =
      (if 1 ≤ i then
         if (l.getD (i - 1) default).price ≠ 0 then
           { l.getD i default with
             change := (l.getD i default).price - (l.getD (i - 1) default).price
             move := ((l.getD i default).price - (l.getD (i - 1) default).price) /
               (l.getD (i - 1) default).price * 100 }
         else
           { l.getD i default with
             change := (l.getD i default).price - (l.getD (i - 1) default).price }
       else l.getD i default) :=
  getD_map_range _ h

theorem add_dynamic_step_getD (l : List PiCycleData) {i : ℕ} (h : i < l.length) :
    (add_dynamic_step l).getD i default =
      (if 364 ≤ i then
         { l.getD i default with dynamic_step := dsSum l i, step := dsSum l i }
       else
         { l.getD i default with step := (l.getD i default).dynamic_step }) :=
  getD_map_range _ h

theorem add_offset_getD (l : List PiCycleData) {i : ℕ} (h : i < l.length) :
    (add_offset l).getD i default =
      (if (l.getD i default).median ≠ 0 then
         { l.getD i default with
           offset := ((l.getD i default).price - (l.getD i default).median) /
             (l.getD i default).median * 100 }
       else l.getD i default) := by
  rw [List.getD_eq_getElem _ _ (by simpa [add_offset] using h),
    List.getD_eq_getElem _ _ h]
  simp only [add_offset, List.getElem_map]

theorem add_weeks_52_getD (l : List PiCycleData) {i : ℕ} (h : i < l.length) :
    (add_weeks_52 l).getD i default =
      (if 364 ≤ i then
         if (l.getD (i - 364) default).price ≠ 0 then
           { l.getD i default with
             weeks_52 := ((l.getD i default).price - (l.getD (i - 364) default).price) /
               (l.getD (i - 364) default).price * 100 }
         else l.getD i default
       else l.getD i default) :=
  getD_map_range _ h

/-! ## Field characterizations of the projection row -/

theorem projRow_price (klines : List Kline) (i : ℕ) :
    (projRow klines i).price = (klines.getD i default).price := by
  by_cases h : 364 ≤ i <;> simp [projRow, h]

theorem projRow_ma (klines : List Kline) {i : ℕ} (h : 364 ≤ i) :
    (projRow klines i).ma_365 = maOf klines i := by
  simp [projRow, h]

theorem projRow_sd (klines : List Kline) {i : ℕ} (h : 364 ≤ i) :
    (projRow klines i).std_365 = sdOf klines i := by
  simp [projRow, h]

theorem projRow_ceiling (klines : List Kline) {i : ℕ} (h : 364 ≤ i) :
    (projRow klines i).ceiling = maOf klines i + 2 * sdOf klines i := by
  simp [projRow, h]

theorem projRow_floor (klines : List Kline) {i : ℕ} (h : 364 ≤ i) :
    (projRow klines i).floor = maOf klines i := by
  simp [projRow, h]

theorem projRow_median (klines : List Kline) {i : ℕ} (h : 364 ≤ i) :
    (projRow klines i).median = (maOf klines i + 2 * sdOf klines i + maOf klines i) / 2 := by
  simp [projRow, h]

theorem projRow_window_zero (klines : List Kline) {i : ℕ} (h : i < 364) :
    (projRow klines i).ma_365 = 0 ∧ (projRow klines i).std_365 = 0 ∧
    (projRow klines i).ceiling = 0 ∧ (projRow klines i).floor = 0 ∧
    (projRow klines i).median = 0 := by
  simp [projRow, Nat.not_le.mpr h]

theorem projRow_derived_zero (klines : List Kline) (i : ℕ) :
    (projRow klines i).change = 0 ∧ (projRow klines i).move = 0 ∧
    (projRow klines i).dynamic_step = 0 ∧ (projRow klines i).step = 0 ∧
    (projRow klines i).offset = 0 ∧ (projRow klines i).weeks_52 = 0 := by
  by_cases h : 364 ≤ i <;> simp [projRow, h]

/-! ## Sums over index windows as sums over sublists -/

theorem list_sum_getD (l : List ℝ) :
    l.sum = ∑ j ∈ Finset.range l.length, l.getD j 0 := by
  induction l with
  | nil => simp
  | cons a t ih =>
    rw [List.sum_cons, List.length_cons, Finset.sum_range_succ']
    simp only [List.getD_cons_succ, List.getD_cons_zero]
    rw [← ih]
    exact add_comm a t.sum

theorem sum_take_drop (l : List ℝ) (a n : ℕ) (h : a + n ≤ l.length) :
    ((l.drop a).take n).sum = ∑ j ∈ Finset.range n, l.getD (a + j) 0 := by
  rw [list_sum_getD]
  have hlen : ((l.drop a).take n).length = n := by
    simp only [List.length_take, List.length_drop]
    omega
  rw [hlen]
  refine Finset.sum_congr rfl (fun j hj => ?_)
  have hj' : j < n := Finset.mem_range.mp hj
  have h1 : j < ((l.drop a).take n).length := by omega
  have h2 : a + j < l.length := by omega
  rw [List.getD_eq_getElem _ _ h1, List.getD_eq_getElem _ _ h2]
  simp [List.getElem_take, List.getElem_drop]

/-- A windowed sum of a function of the klines, `j = i-364 .. i`, is the sum
of the corresponding 365-element sublist of `klines.map f`. -/
theorem sum_Icc_eq_sum_window (f : Kline → ℝ) (klines : List Kline) {i : ℕ}
    (h364 : 364 ≤ i) (h : i < klines.length) :
    ∑ j ∈ Finset.Icc (i - 364) i, f (klines.getD j default) =
      (((klines.map f).drop (i - 364)).take 365).sum := by
  rw [sum_take_drop _ _ _ (by simp only [List.length_map]; omega)]
  rw [← Nat.Ico_succ_right, Finset.sum_Ico_eq_sum_range,
    show i + 1 - (i - 364) = 365 from by omega]
  refine Finset.sum_congr rfl (fun j hj => ?_)
  have hj' : j < 365 := Finset.mem_range.mp hj
  have hlt : i - 364 + j < klines.length := by omega
  rw [List.getD_eq_getElem _ _ hlt,
    List.getD_eq_getElem (klines.map f) _ (by simpa using hlt)]
  simp

theorem rowAt_eq_projRow (klines : List Kline) (ym : ℝ) {i : ℕ}
    (h : i < klines.length) : rowAt klines ym i = projRow klines i :=
  price_projection_getD klines ym h

theorem maOf_eq_window (klines : List Kline) {i : ℕ} (h364 : 364 ≤ i)
    (hlen : i < klines.length) :
    maOf klines i = (window365 klines i).sum / 365 := by
  rw [maOf, window365, sum_Icc_eq_sum_window Kline.price klines h364 hlen]

theorem sdOf_eq_window (klines : List Kline) {i : ℕ} (h364 : 364 ≤ i)
    (hlen : i < klines.length) :
    sdOf klines i =
      Real.sqrt (((window365 klines i).map (fun p => (p - maOf klines i) ^ 2)).sum / 365) := by
  have hw : ((klines.map (fun k => (k.price - maOf klines i) ^ 2)).drop (i - 364)).take 365
      = (window365 klines i).map (fun p => (p - maOf klines i) ^ 2) := by
    simp [window365, List.map_take, List.map_drop, List.map_map, Function.comp_def]
  rw [sdOf, sum_Icc_eq_sum_window (fun k => (k.price - maOf klines i) ^ 2) klines h364 hlen, hw]

/-- C1: for every price sequence and every index `i ≥ 364`, the produced row
has `ma_365` equal to the arithmetic mean of `prices[i-364..i]` (365
samples), `std_365` equal to the square root of the sum of squared
deviations from that mean divided by 365 (population estimator),
`ceiling = ma_365 + 2*std_365`, `floor = ma_365`, and
`median = (ceiling + floor)/2`. -/
theorem window_stats_postcondition (klines : List Kline) (ym : ℝ) {i : ℕ}
    (h364 : 364 ≤ i) (hlen : i < klines.length) :
    (rowAt klines ym i).ma_365 = (window365 klines i).sum / 365 ∧
    (rowAt klines ym i).std_365 =
      Real.sqrt (((window365 klines i).map
        (fun p => (p - (rowAt klines ym i).ma_365) ^ 2)).sum / 365) ∧
    (rowAt klines ym i).ceiling =
      (rowAt klines ym i).ma_365 + 2 * (rowAt klines ym i).std_365 ∧
    (rowAt klines ym i).floor = (rowAt klines ym i).ma_365 ∧
    (rowAt klines ym i).median =
      ((rowAt klines ym i).ceiling + (rowAt klines ym i).floor) / 2 := by
  rw [rowAt_eq_projRow klines ym hlen, projRow_ma klines h364, projRow_sd klines h364,
    projRow_ceiling klines h364, projRow_floor klines h364, projRow_median klines h364]
  refine ⟨maOf_eq_window klines h364 hlen, sdOf_eq_window klines h364 hlen, rfl, rfl, by ring⟩

theorem klinesW_length : klinesW.length = 365 := by
  rw [klinesW, List.length_replicate]

/-- Witness for C1 at the concrete 365-row input and index 364. -/
theorem window_stats_postcondition_witness :
    364 ≤ 364 ∧ 364 < klinesW.length ∧
    ((rowAt klinesW 0 364).ma_365 = (window365 klinesW 364).sum / 365 ∧
     (rowAt klinesW 0 364).std_365 =
       Real.sqrt (((window365 klinesW 364).map
         (fun p => (p - (rowAt klinesW 0 364).ma_365) ^ 2)).sum / 365) ∧
     (rowAt klinesW 0 364).ceiling =
       (rowAt klinesW 0 364).ma_365 + 2 * (rowAt klinesW 0 364).std_365 ∧
     (rowAt klinesW 0 364).floor = (rowAt klinesW 0 364).ma_365 ∧
     (rowAt klinesW 0 364).median =
       ((rowAt klinesW 0 364).ceiling + (rowAt klinesW 0 364).floor) / 2) :=
  ⟨by norm_num, by rw [klinesW_length]; norm_num,
    window_stats_postcondition klinesW 0 (by norm_num) (by rw [klinesW_length]; norm_num)⟩

/-! ## Record-update characterizations of the four calculator loops -/

theorem add_change_move_getD_eq (l : List PiCycleData) {i : ℕ} (h : i < l.length) :
    (add_change_move l).getD i default =
      { l.getD i default with
        change :=
          if 1 ≤ i then (l.getD i default).price - (l.getD (i - 1) default).price
          else (l.getD i default).change
        move :=
          if 1 ≤ i ∧ (l.getD (i - 1) default).price ≠ 0 then
            ((l.getD i default).price - (l.getD (i - 1) default).price) /
              (l.getD (i - 1) default).price * 100
          else (l.getD i default).move } := by
  rw [add_change_move_getD l h]
  by_cases h1 : 1 ≤ i
  · by_cases h2 : (l.getD (i - 1) default).price ≠ 0
    · rw [if_pos h1, if_pos h2, if_pos h1, if_pos (And.intro h1 h2)]
    · rw [if_pos h1, if_neg h2, if_pos h1, if_neg (fun hc => h2 hc.2)]
  · rw [if_neg h1, if_neg h1, if_neg (fun hc => h1 hc.1)]

theorem add_dynamic_step_getD_eq (l : List PiCycleData) {i : ℕ} (h : i < l.length) :
    (add_dynamic_step l).getD i default =
      { l.getD i default with
        dynamic_step :=
          if 364 ≤ i then dsSum l i else (l.getD i default).dynamic_step
        step :=
          if 364 ≤ i then dsSum l i else (l.getD i default).dynamic_step } := by
  rw [add_dynamic_step_getD l h]
  by_cases h1 : 364 ≤ i
  · rw [if_pos h1, if_pos h1]
  · rw [if_neg h1, if_neg h1]

theorem add_offset_getD_eq (l : List PiCycleData) {i : ℕ} (h : i < l.length) :
    (add_offset l).getD i default =
      { l.getD i default with
        offset :=
          if (l.getD i default).median ≠ 0 then
            ((l.getD i default).price - (l.getD i default).median) /
              (l.getD i default).median * 100
          else (l.getD i default).offset } := by
  rw [add_offset_getD l h]
  by_cases h1 : (l.getD i default).median ≠ 0
  · rw [if_pos h1, if_pos h1]
  · rw [if_neg h1, if_neg h1]

theorem add_weeks_52_getD_eq (l : List PiCycleData) {i : ℕ} (h : i < l.length) :
    (add_weeks_52 l).getD i default =
      { l.getD i default with
        weeks_52 :=
          if 364 ≤ i ∧ (l.getD (i - 364) default).price ≠ 0 then
            ((l.getD i default).price - (l.getD (i - 364) default).price) /
              (l.getD (i - 364) default).price * 100
          else (l.getD i default).weeks_52 } := by
  rw [add_weeks_52_getD l h]
  by_cases h1 : 364 ≤ i
  · by_cases h2 : (l.getD (i - 364) default).price ≠ 0
    · rw [if_pos h1, if_pos h2, if_pos (And.intro h1 h2)]
    · rw [if_pos h1, if_neg h2, if_neg (fun hc => h2 hc.2)]
  · rw [if_neg h1, if_neg (fun hc => h1 hc.1)]

/-! ## The pipeline stages in terms of the input klines -/

theorem l1_spec (klines : List Kline) (ym : ℝ) {k : ℕ} (h : k < klines.length) :
    (add_change_move (price_projection klines ym)).getD k default =
      { projRow klines k with
        change :=
          if 1 ≤ k then
            (klines.getD k default).price - (klines.getD (k - 1) default).price
          else 0
        move :=
          if 1 ≤ k ∧ (klines.getD (k - 1) default).price ≠ 0 then
            ((klines.getD k default).price - (klines.getD (k - 1) default).price) /
              (klines.getD (k - 1) default).price * 100
          else 0 } := by
  have hk0 : k < (price_projection klines ym).length := by
    rw [price_projection_length]; exact h
  have hk1 : k - 1 < klines.length := lt_of_le_of_lt (Nat.sub_le k 1) h
  rw [add_change_move_getD_eq _ hk0, price_projection_getD klines ym h,
    price_projection_getD klines ym hk1, projRow_price klines k, projRow_price klines (k - 1),
    (projRow_derived_zero klines k).1, (projRow_derived_zero klines k).2.1]

theorem l1_price (klines : List Kline) (ym : ℝ) {k : ℕ} (h : k < klines.length) :
    ((add_change_move (price_projection klines ym)).getD k default).price =
      (klines.getD k default).price := by
  rw [l1_spec klines ym h]; exact projRow_price klines k

theorem l1_dynamic_step (klines : List Kline) (ym : ℝ) {k : ℕ} (h : k < klines.length) :
    ((add_change_move (price_projection klines ym)).getD k default).dynamic_step = 0 := by
  rw [l1_spec klines ym h]; exact (projRow_derived_zero klines k).2.2.1

theorem l1_offset (klines : List Kline) (ym : ℝ) {k : ℕ} (h : k < klines.length) :
    ((add_change_move (price_projection klines ym)).getD k default).offset = 0 := by
  rw [l1_spec klines ym h]; exact (projRow_derived_zero klines k).2.2.2.2.1

theorem l1_weeks_52 (klines : List Kline) (ym : ℝ) {k : ℕ} (h : k < klines.length) :
    ((add_change_move (price_projection klines ym)).getD k default).weeks_52 = 0 := by
  rw [l1_spec klines ym h]; exact (projRow_derived_zero klines k).2.2.2.2.2

theorem l1_change (klines : List Kline) (ym : ℝ) {k : ℕ} (h : k < klines.length) :
    ((add_change_move (price_projection klines ym)).getD k default).change =
      chg klines k := by
  rw [l1_spec klines ym h, chg]

theorem l2_spec (klines : List Kline) (ym : ℝ) {k : ℕ} (h : k < klines.length) :
    (add_dynamic_step (add_change_move (price_projection klines ym))).getD k default =
      { (add_change_move (price_projection klines ym)).getD k default with
        dynamic_step :=
          if 364 ≤ k then dsSum (add_change_move (price_projection klines ym)) k else 0
        step :=
          if 364 ≤ k then dsSum (add_change_move (price_projection klines ym)) k else 0 } := by
  have hk0 : k < (add_change_move (price_projection klines ym)).length := by
    rw [add_change_move_length, price_projection_length]; exact h
  rw [add_dynamic_step_getD_eq _ hk0, l1_dynamic_step klines ym h]

theorem l2_price (klines : List Kline) (ym : ℝ) {k : ℕ} (h : k < klines.length) :
    ((add_dynamic_step (add_change_move (price_projection klines ym))).getD k default).price =
      (klines.getD k default).price := by
  rw [l2_spec klines ym h]; exact l1_price klines ym h

theorem l2_median (klines : List Kline) (ym : ℝ) {k : ℕ} (h : k < klines.length) :
    ((add_dynamic_step (add_change_move (price_projection klines ym))).getD k default).median =
      (projRow klines k).median := by
  rw [l2_spec klines ym h, l1_spec klines ym h]

theorem l2_offset (klines : List Kline) (ym : ℝ) {k : ℕ} (h : k < klines.length) :
    ((add_dynamic_step (add_change_move (price_projection klines ym))).getD k default).offset
      = 0 := by
  rw [l2_spec klines ym h]; exact l1_offset klines ym h

theorem l3_spec (klines : List Kline) (ym : ℝ) {k : ℕ} (h : k < klines.length) :
    (add_offset (add_dynamic_step (add_change_move (price_projection klines ym)))).getD k
        default =
      { (add_dynamic_step (add_change_move (price_projection klines ym))).getD k default with
        offset :=
          if (projRow klines k).median ≠ 0 then
            ((klines.getD k default).price - (projRow klines k).median) /
              (projRow klines k).median * 100
          else 0 } := by
  have hk0 : k < (add_dynamic_step (add_change_move (price_projection klines ym))).length := by
    rw [add_dynamic_step_length, add_change_move_length, price_projection_length]; exact h
  rw [add_offset_getD_eq _ hk0, l2_offset klines ym h, l2_median klines ym h,
    l2_price klines ym h]

theorem l3_price (klines : List Kline) (ym : ℝ) {k : ℕ} (h : k < klines.length) :
    ((add_offset (add_dynamic_step (add_change_move (price_projection klines ym)))).getD k
      default).price = (klines.getD k default).price := by
  rw [l3_spec klines ym h]; exact l2_price klines ym h

theorem l3_weeks_52 (klines : List Kline) (ym : ℝ) {k : ℕ} (h : k < klines.length) :
    ((add_offset (add_dynamic_step (add_change_move (price_projection klines ym)))).getD k
      default).weeks_52 = 0 := by
  rw [l3_spec klines ym h, l2_spec klines ym h]; exact l1_weeks_52 klines ym h

theorem engine_spec (klines : List Kline) (ym : ℝ) (nd : ℕ) {k : ℕ}
    (h : k < klines.length) :
    engineRowAt klines ym nd k =
      { (add_offset (add_dynamic_step (add_change_move (price_projection klines ym)))).getD k
          default with
        weeks_52 :=
          if 364 ≤ k ∧ (klines.getD (k - 364) default).price ≠ 0 then
            ((klines.getD k default).price - (klines.getD (k - 364) default).price) /
              (klines.getD (k - 364) default).price * 100
          else 0 } := by
  have hk364 : k - 364 < klines.length := lt_of_le_of_lt (Nat.sub_le k 364) h
  have hk0 : k <
      (add_offset (add_dynamic_step (add_change_move (price_projection klines ym)))).length := by
    rw [add_offset_length, add_dynamic_step_length, add_change_move_length,
      price_projection_length]
    exact h
  show (add_weeks_52 (add_offset (add_dynamic_step (add_change_move
    (price_projection klines ym))))).getD k default = _
  rw [add_weeks_52_getD_eq _ hk0, l3_weeks_52 klines ym h, l3_price klines ym h,
    l3_price klines ym hk364]

/-! ## Field values of the final engine rows -/

theorem engineRowAt_price (klines : List Kline) (ym : ℝ) (nd : ℕ) {k : ℕ}
    (h : k < klines.length) :
    (engineRowAt klines ym nd k).price = (klines.getD k default).price := by
  rw [engine_spec klines ym nd h]; exact l3_price klines ym h

theorem engineRowAt_band (klines : List Kline) (ym : ℝ) (nd : ℕ) {k : ℕ}
    (h : k < klines.length) :
    (engineRowAt klines ym nd k).ma_365 = (projRow klines k).ma_365 ∧
    (engineRowAt klines ym nd k).std_365 = (projRow klines k).std_365 ∧
    (engineRowAt klines ym nd k).ceiling = (projRow klines k).ceiling ∧
    (engineRowAt klines ym nd k).floor = (projRow klines k).floor ∧
    (engineRowAt klines ym nd k).median = (projRow klines k).median := by
  rw [engine_spec klines ym nd h, l3_spec klines ym h, l2_spec klines ym h, l1_spec klines ym h]
  exact ⟨rfl, rfl, rfl, rfl, rfl⟩

theorem engineRowAt_change (klines : List Kline) (ym : ℝ) (nd : ℕ) {k : ℕ}
    (h : k < klines.length) :
    (engineRowAt klines ym nd k).change = chg klines k := by
  rw [engine_spec klines ym nd h, l3_spec klines ym h, l2_spec klines ym h, l1_spec klines ym h]
  rfl

theorem engineRowAt_move (klines : List Kline) (ym : ℝ) (nd : ℕ) {k : ℕ}
    (h : k < klines.length) :
    (engineRowAt klines ym nd k).move =
      (if 1 ≤ k ∧ (klines.getD (k - 1) default).price ≠ 0 then
        ((klines.getD k default).price - (klines.getD (k - 1) default).price) /
          (klines.getD (k - 1) default).price * 100
      else 0) := by
  rw [engine_spec klines ym nd h, l3_spec klines ym h, l2_spec klines ym h, l1_spec klines ym h]

theorem engineRowAt_dynamic_step (klines : List Kline) (ym : ℝ) (nd : ℕ) {k : ℕ}
    (h : k < klines.length) :
    (engineRowAt klines ym nd k).dynamic_step =
      (if 364 ≤ k then dsSum (add_change_move (price_projection klines ym)) k else 0) := by
  rw [engine_spec klines ym nd h, l3_spec klines ym h, l2_spec klines ym h]

theorem engineRowAt_step (klines : List Kline) (ym : ℝ) (nd : ℕ) {k : ℕ}
    (h : k < klines.length) :
    (engineRowAt klines ym nd k).step = (engineRowAt klines ym nd k).dynamic_step := by
  rw [engine_spec klines ym nd h, l3_spec klines ym h, l2_spec klines ym h]

theorem engineRowAt_offset (klines : List Kline) (ym : ℝ) (nd : ℕ) {k : ℕ}
    (h : k < klines.length) :
    (engineRowAt klines ym nd k).offset =
      (if (projRow klines k).median ≠ 0 then
        ((klines.getD k default).price - (projRow klines k).median) /
          (projRow klines k).median * 100
      else 0) := by
  rw [engine_spec klines ym nd h, l3_spec klines ym h]

theorem engineRowAt_weeks_52 (klines : List Kline) (ym : ℝ) (nd : ℕ) {k : ℕ}
    (h : k < klines.length) :
    (engineRowAt klines ym nd k).weeks_52 =
      (if 364 ≤ k ∧ (klines.getD (k - 364) default).price ≠ 0 then
        ((klines.getD k default).price - (klines.getD (k - 364) default).price) /
          (klines.getD (k - 364) default).price * 100
      else 0) := by
  rw [engine_spec klines ym nd h]

/-! ## Claims C3, C4, C5 -/

/-- C3: for every index `i < 364` the produced row has `ma_365`, `std_365`,
`ceiling`, `floor` and `median` all equal to the zero sentinel, both in the
Window Statistics Engine output and after the Derived Field Calculator, and
the final row's `weeks_52` (yoyPct) is also the zero sentinel; in particular
for an input of length exactly 364 this covers every row of the output. -/
theorem insufficient_history_sentinel (klines : List Kline) (ym : ℝ) (nd : ℕ) {i : ℕ}
    (hi : i < 364) (hlen : i < klines.length) :
    (rowAt klines ym i).ma_365 = 0 ∧ (rowAt klines ym i).std_365 = 0 ∧
    (rowAt klines ym i).ceiling = 0 ∧ (rowAt klines ym i).floor = 0 ∧
    (rowAt klines ym i).median = 0 ∧
    (engineRowAt klines ym nd i).ma_365 = 0 ∧ (engineRowAt klines ym nd i).std_365 = 0 ∧
    (engineRowAt klines ym nd i).ceiling = 0 ∧ (engineRowAt klines ym nd i).floor = 0 ∧
    (engineRowAt klines ym nd i).median = 0 ∧
    (engineRowAt klines ym nd i).weeks_52 = 0 := by
  obtain ⟨z1, z2, z3, z4, z5⟩ := projRow_window_zero klines hi
  obtain ⟨b1, b2, b3, b4, b5⟩ := engineRowAt_band klines ym nd hlen
  rw [rowAt_eq_projRow klines ym hlen]
  refine ⟨z1, z2, z3, z4, z5, b1.trans z1, b2.trans z2, b3.trans z3, b4.trans z4,
    b5.trans z5, ?_⟩
  rw [engineRowAt_weeks_52 klines ym nd hlen, if_neg (fun hc => absurd hc.1 (by omega))]

/-- Witness for C3 at a 364-row input (all rows below the window). -/
theorem insufficient_history_sentinel_witness :
    363 < 364 ∧ 363 < (List.replicate 364 { date := "", price := (100:ℝ) : Kline }).length ∧
    ((rowAt (List.replicate 364 { date := "", price := (100:ℝ) : Kline }) 0 363).ma_365 = 0 ∧
     (rowAt (List.replicate 364 { date := "", price := (100:ℝ) : Kline }) 0 363).std_365 = 0 ∧
     (rowAt (List.replicate 364 { date := "", price := (100:ℝ) : Kline }) 0 363).ceiling = 0 ∧
     (rowAt (List.replicate 364 { date := "", price := (100:ℝ) : Kline }) 0 363).floor = 0 ∧
     (rowAt (List.replicate 364 { date := "", price := (100:ℝ) : Kline }) 0 363).median = 0 ∧
     (engineRowAt (List.replicate 364 { date := "", price := (100:ℝ) : Kline }) 0 33 363).ma_365 = 0 ∧
     (engineRowAt (List.replicate 364 { date := "", price := (100:ℝ) : Kline }) 0 33 363).std_365 = 0 ∧
     (engineRowAt (List.replicate 364 { date := "", price := (100:ℝ) : Kline }) 0 33 363).ceiling = 0 ∧
     (engineRowAt (List.replicate 364 { date := "", price := (100:ℝ) : Kline }) 0 33 363).floor = 0 ∧
     (engineRowAt (List.replicate 364 { date := "", price := (100:ℝ) : Kline }) 0 33 363).median = 0 ∧
     (engineRowAt (List.replicate 364 { date := "", price := (100:ℝ) : Kline }) 0 33 363).weeks_52 = 0) :=
  ⟨by norm_num, by rw [List.length_replicate]; norm_num, insufficient_history_sentinel _ 0 33
    (by norm_num) (by rw [List.length_replicate]; norm_num)⟩

theorem dsSum_eq_Icc (klines : List Kline) (ym : ℝ) {i : ℕ} (h364 : 364 ≤ i)
    (hlen : i < klines.length) :
    dsSum (add_change_move (price_projection klines ym)) i =
      (∑ j ∈ Finset.Icc (i - 363) i, chg klines j) / 364 := by
  rw [dsSum]
  have hterm : ∀ j ∈ Finset.range 364,
      ((add_change_move (price_projection klines ym)).getD (i - j) default).change
        = chg klines (i - j) := fun j _ =>
    l1_change klines ym (lt_of_le_of_lt (Nat.sub_le i j) hlen)
  have hsum : ∑ j ∈ Finset.Icc (i - 363) i, chg klines j =
      ∑ j ∈ Finset.range 364, chg klines (i - j) := by
    rw [← Nat.Ico_succ_right, Finset.sum_Ico_eq_sum_range,
      show i + 1 - (i - 363) = 364 from by omega, ← Finset.sum_range_reflect]
    refine Finset.sum_congr rfl (fun j hj => ?_)
    have hj' : j < 364 := Finset.mem_range.mp hj
    have harg : i - 363 + (364 - 1 - j) = i - j := by omega
    rw [harg]
  rw [Finset.sum_congr rfl hterm, hsum]

/-- C4: the dynamic step of a final row equals the arithmetic mean of the 364
stored `change` values of rows `i-363 .. i` when `i ≥ 364` and is the zero
sentinel otherwise, and `step` is set from `dynamic_step` for every row. -/
theorem dynamic_step_postcondition (klines : List Kline) (ym : ℝ) (nd : ℕ) {i : ℕ}
    (hlen : i < klines.length) :
    (364 ≤ i →
      (engineRowAt klines ym nd i).dynamic_step =
        (∑ j ∈ Finset.Icc (i - 363) i, (engineRowAt klines ym nd j).change) / 364) ∧
    (i < 364 → (engineRowAt klines ym nd i).dynamic_step = 0) ∧
    (engineRowAt klines ym nd i).step = (engineRowAt klines ym nd i).dynamic_step := by
  refine ⟨fun h364 => ?_, fun hlt => ?_, engineRowAt_step klines ym nd hlen⟩
  · rw [engineRowAt_dynamic_step klines ym nd hlen, if_pos h364,
      dsSum_eq_Icc klines ym h364 hlen]
    have hsum : ∑ j ∈ Finset.Icc (i - 363) i, (engineRowAt klines ym nd j).change =
        ∑ j ∈ Finset.Icc (i - 363) i, chg klines j := by
      refine Finset.sum_congr rfl (fun j hj => ?_)
      have hji : j ≤ i := (Finset.mem_Icc.mp hj).2
      exact engineRowAt_change klines ym nd (lt_of_le_of_lt hji hlen)
    rw [hsum]
  · rw [engineRowAt_dynamic_step klines ym nd hlen, if_neg (by omega)]

/-- Witness for C4 at the concrete 365-row constant input and index 364. -/
theorem dynamic_step_postcondition_witness :
    364 < klinesW.length ∧
    ((364 ≤ 364 →
      (engineRowAt klinesW 0 33 364).dynamic_step =
        (∑ j ∈ Finset.Icc (364 - 363) 364, (engineRowAt klinesW 0 33 j).change) / 364) ∧
     (364 < 364 → (engineRowAt klinesW 0 33 364).dynamic_step = 0) ∧
     (engineRowAt klinesW 0 33 364).step = (engineRowAt klinesW 0 33 364).dynamic_step) :=
  ⟨by rw [klinesW_length]; norm_num,
    dynamic_step_postcondition klinesW 0 33 (by rw [klinesW_length]; norm_num)⟩

/-- C5: the division-by-zero policy of the Derived Field Calculator.  `move`
is the zero sentinel on the first row or when the previous price is zero and
otherwise the percentage day-over-day move; `offset` is the zero sentinel
when the row's median is zero and otherwise the percentage distance from the
median; `weeks_52` is the zero sentinel when `i < 364` or the price 364 rows
back is zero and otherwise the year-over-year percentage change.  All three
fields are total functions of the input (the embedding returns a value for
every row; no error case exists). -/
theorem division_by_zero_policy (klines : List Kline) (ym : ℝ) (nd : ℕ) {i : ℕ}
    (hlen : i < klines.length) :
    (engineRowAt klines ym nd i).move =
      (if i = 0 ∨ (klines.getD (i - 1) default).price = 0 then 0
       else ((klines.getD i default).price - (klines.getD (i - 1) default).price) /
         (klines.getD (i - 1) default).price * 100) ∧
    (engineRowAt klines ym nd i).offset =
      (if (engineRowAt klines ym nd i).median = 0 then 0
       else ((engineRowAt klines ym nd i).price - (engineRowAt klines ym nd i).median) /
         (engineRowAt klines ym nd i).median * 100) ∧
    (engineRowAt klines ym nd i).weeks_52 =
      (if i < 364 ∨ (klines.getD (i - 364) default).price = 0 then 0
       else ((klines.getD i default).price - (klines.getD (i - 364) default).price) /
         (klines.getD (i - 364) default).price * 100) := by
  refine ⟨?_, ?_, ?_⟩
  · rw [engineRowAt_move klines ym nd hlen]
    rcases Classical.em (i = 0 ∨ (klines.getD (i - 1) default).price = 0) with hp | hp
    · rw [if_pos hp,
        if_neg (fun hc => hp.elim (fun h0 => absurd hc.1 (by omega)) (fun h0 => hc.2 h0))]
    · have h1 : 1 ≤ i := by
        rcases Nat.eq_zero_or_pos i with h0 | h0
        · exact absurd (Or.inl h0) hp
        · exact h0
      have h2 : (klines.getD (i - 1) default).price ≠ 0 := fun h0 => hp (Or.inr h0)
      rw [if_pos (And.intro h1 h2), if_neg hp]
  · rw [engineRowAt_offset klines ym nd hlen,
      (engineRowAt_band klines ym nd hlen).2.2.2.2, engineRowAt_price klines ym nd hlen]
    by_cases hm : (projRow klines i).median = 0
    · rw [if_neg (fun hc => hc hm), if_pos hm]
    · rw [if_pos hm, if_neg hm]
  · rw [engineRowAt_weeks_52 klines ym nd hlen]
    rcases Classical.em (i < 364 ∨ (klines.getD (i - 364) default).price = 0) with hp | hp
    · rw [if_pos hp,
        if_neg (fun hc => hp.elim (fun h0 => absurd hc.1 (by omega)) (fun h0 => hc.2 h0))]
    · have h1 : 364 ≤ i := by
        rcases Nat.lt_or_ge i 364 with h0 | h0
        · exact absurd (Or.inl h0) hp
        · exact h0
      have h2 : (klines.getD (i - 364) default).price ≠ 0 := fun h0 => hp (Or.inr h0)
      rw [if_pos (And.intro h1 h2), if_neg hp]

/-- Witness for C5 at the concrete 365-row constant input and index 364. -/
theorem division_by_zero_policy_witness :
    364 < klinesW.length ∧
    ((engineRowAt klinesW 0 33 364).move =
      (if 364 = 0 ∨ (klinesW.getD (364 - 1) default).price = 0 then 0
       else ((klinesW.getD 364 default).price - (klinesW.getD (364 - 1) default).price) /
         (klinesW.getD (364 - 1) default).price * 100) ∧
     (engineRowAt klinesW 0 33 364).offset =
      (if (engineRowAt klinesW 0 33 364).median = 0 then 0
       else ((engineRowAt klinesW 0 33 364).price - (engineRowAt klinesW 0 33 364).median) /
         (engineRowAt klinesW 0 33 364).median * 100) ∧
     (engineRowAt klinesW 0 33 364).weeks_52 =
      (if 364 < 364 ∨ (klinesW.getD (364 - 364) default).price = 0 then 0
       else ((klinesW.getD 364 default).price - (klinesW.getD (364 - 364) default).price) /
         (klinesW.getD (364 - 364) default).price * 100)) :=
  ⟨by rw [klinesW_length]; norm_num,
    division_by_zero_policy klinesW 0 33 (by rw [klinesW_length]; norm_num)⟩

/-! ## Claim C10: band ordering invariant -/

/-- C10: every row produced by the Window Statistics Engine satisfies
`floor ≤ median ≤ ceiling` and `ceiling + floor = 2*median`; for `i ≥ 364`
both gaps equal `std_365 ≥ 0`, and the three band values coincide exactly
when the trailing standard deviation is zero. -/
theorem band_ordering_invariant (klines : List Kline) (ym : ℝ) {i : ℕ}
    (hlen : i < klines.length) :
    (rowAt klines ym i).floor ≤ (rowAt klines ym i).median ∧
    (rowAt klines ym i).median ≤ (rowAt klines ym i).ceiling ∧
    (rowAt klines ym i).ceiling + (rowAt klines ym i).floor = 2 * (rowAt klines ym i).median ∧
    (364 ≤ i →
      (rowAt klines ym i).median - (rowAt klines ym i).floor = (rowAt klines ym i).std_365 ∧
      (rowAt klines ym i).ceiling - (rowAt klines ym i).median = (rowAt klines ym i).std_365 ∧
      0 ≤ (rowAt klines ym i).std_365 ∧
      ((rowAt klines ym i).floor = (rowAt klines ym i).ceiling ↔
        (rowAt klines ym i).std_365 = 0)) := by
  rw [rowAt_eq_projRow klines ym hlen]
  by_cases h364 : 364 ≤ i
  · rw [projRow_floor klines h364, projRow_median klines h364, projRow_ceiling klines h364,
      projRow_sd klines h364]
    have hs : 0 ≤ sdOf klines i := Real.sqrt_nonneg _
    refine ⟨by linarith, by linarith, by ring, fun _ => ⟨by ring, by ring, hs, ?_⟩⟩
    constructor
    · intro h; linarith
    · intro h; rw [h]; ring
  · obtain ⟨z1, z2, z3, z4, z5⟩ := projRow_window_zero klines (Nat.not_le.mp h364)
    rw [z2, z3, z4, z5]
    exact ⟨le_refl 0, le_refl 0, by ring, fun hc => absurd hc h364⟩

/-- Witness for C10 at the concrete 365-row constant input and index 364. -/
theorem band_ordering_invariant_witness :
    364 < klinesW.length ∧
    ((rowAt klinesW 0 364).floor ≤ (rowAt klinesW 0 364).median ∧
     (rowAt klinesW 0 364).median ≤ (rowAt klinesW 0 364).ceiling ∧
     (rowAt klinesW 0 364).ceiling + (rowAt klinesW 0 364).floor =
       2 * (rowAt klinesW 0 364).median ∧
     (364 ≤ 364 →
       (rowAt klinesW 0 364).median - (rowAt klinesW 0 364).floor =
         (rowAt klinesW 0 364).std_365 ∧
       (rowAt klinesW 0 364).ceiling - (rowAt klinesW 0 364).median =
         (rowAt klinesW 0 364).std_365 ∧
       0 ≤ (rowAt klinesW 0 364).std_365 ∧
       ((rowAt klinesW 0 364).floor = (rowAt klinesW 0 364).ceiling ↔
         (rowAt klinesW 0 364).std_365 = 0))) :=
  ⟨by rw [klinesW_length]; norm_num,
    band_ordering_invariant klinesW 0 (by rw [klinesW_length]; norm_num)⟩

/-! ## Claim C2: median tracking (corrected) -/

theorem klinesCE_length : klinesCE.length = 365 := by
  rw [klinesCE, List.length_append, List.length_replicate, List.length_replicate]

theorem window_klinesCE :
    window365 klinesCE 364 = List.replicate 73 (5:ℝ) ++ List.replicate 292 0 := by
  rw [window365, klinesCE, List.map_append, List.map_replicate, List.map_replicate,
    Nat.sub_self, List.drop_zero]
  apply List.take_of_length_le
  rw [List.length_append, List.length_replicate, List.length_replicate]

theorem maOf_klinesCE : maOf klinesCE 364 = 1 := by
  rw [maOf_eq_window klinesCE (by norm_num) (by rw [klinesCE_length]; norm_num),
    window_klinesCE, List.sum_append, List.sum_replicate, List.sum_replicate]
  simp only [nsmul_eq_mul]
  norm_num

theorem sdOf_klinesCE : sdOf klinesCE 364 = 2 := by
  rw [sdOf_eq_window klinesCE (by norm_num) (by rw [klinesCE_length]; norm_num),
    window_klinesCE, maOf_klinesCE, List.map_append, List.map_replicate,
    List.map_replicate, List.sum_append, List.sum_replicate, List.sum_replicate]
  simp only [nsmul_eq_mul]
  norm_num
  rw [show (4:ℝ) = 2 ^ 2 by norm_num, Real.sqrt_sq (by norm_num : (0:ℝ) ≤ 2)]

/-- C2 counterexample: on the concrete input `klinesCE` (mean 1, standard
deviation 2 at index 364) the produced row has `median = 3 ≠ 1 = ma_365` and
`ceiling - median = 2 ≠ 4 = 2*std_365` — differences far beyond any 1e-9
relative tolerance. -/
theorem median_tracking_counterexample :
    (rowAt klinesCE 1 364).median ≠ (rowAt klinesCE 1 364).ma_365 ∧
    (rowAt klinesCE 1 364).ceiling - (rowAt klinesCE 1 364).median ≠
      2 * (rowAt klinesCE 1 364).std_365 := by
  have hlen : (364:ℕ) < klinesCE.length := by rw [klinesCE_length]; norm_num
  rw [rowAt_eq_projRow klinesCE 1 hlen, projRow_median klinesCE (by norm_num),
    projRow_ma klinesCE (by norm_num), projRow_ceiling klinesCE (by norm_num),
    projRow_sd klinesCE (by norm_num), maOf_klinesCE, sdOf_klinesCE]
  norm_num

/-- C2 amended: for every index `i ≥ 364` the produced row satisfies
`median = ma_365 + std_365` (not `median = ma_365`) and
`ceiling - median = std_365` (not `2*std_365`), exactly. -/
theorem median_band_relation (klines : List Kline) (ym : ℝ) {i : ℕ}
    (h364 : 364 ≤ i) (hlen : i < klines.length) :
    (rowAt klines ym i).median = (rowAt klines ym i).ma_365 + (rowAt klines ym i).std_365 ∧
    (rowAt klines ym i).ceiling - (rowAt klines ym i).median =
      (rowAt klines ym i).std_365 := by
  rw [rowAt_eq_projRow klines ym hlen, projRow_median klines h364, projRow_ma klines h364,
    projRow_sd klines h364, projRow_ceiling klines h364]
  constructor <;> ring

/-- Witness for the amended C2 at the concrete 365-row constant input. -/
theorem median_band_relation_witness :
    364 ≤ 364 ∧ 364 < klinesW.length ∧
    ((rowAt klinesW 0 364).median =
      (rowAt klinesW 0 364).ma_365 + (rowAt klinesW 0 364).std_365 ∧
     (rowAt klinesW 0 364).ceiling - (rowAt klinesW 0 364).median =
      (rowAt klinesW 0 364).std_365) :=
  ⟨le_refl 364, by rw [klinesW_length]; norm_num,
    median_band_relation klinesW 0 (le_refl 364) (by rw [klinesW_length]; norm_num)⟩

/-! ## Claim C6: zone classifier -/

/-- C6: the classification extracted from `display_public` is a pure total
function of `(price, median, ceiling, floor)` and agrees with the spec's
Zone Classifier algorithm on every input — including degenerate bands, where
the `frac = 0` guard yields the lowest-intensity zone in that direction. -/
theorem zone_classifier_correct (price median ceiling flr : ℝ) :
    classify price median ceiling flr = zoneSpec price median ceiling flr := by
  unfold classify zoneSpec
  simp only [gt_iff_lt, sub_pos, mul_comm median (0.02:ℝ)]

/-! ## Claim C9: determinism -/

/-- C9: the engine (Window Statistics Engine followed by the Derived Field
Calculator) is a pure function of the input sequence: it neither reads nor
writes the `first_row_*` globals, so running it twice — or from any two
global states — yields identical IndicatorRow sequences and leaves the
globals untouched. -/
theorem engine_deterministic (g1 g2 : Globals) (klines : List Kline) (ym : ℝ) (nd : ℕ) :
    (run_engine (run_engine g1 klines ym nd).1 klines ym nd).2 =
      (run_engine g1 klines ym nd).2 ∧
    (run_engine g1 klines ym nd).2 = (run_engine g2 klines ym nd).2 ∧
    (run_engine g1 klines ym nd).1 = g1 :=
  ⟨rfl, rfl, rfl⟩

/-! ## Claim C7: zone symmetry -/

/-- C7: for a nondegenerate band (`floor < median < ceiling`, `median > 0`)
and any relative distance `t` placing both synthetic prices
`median + t*(ceiling-median)` and `median - t*(median-floor)` outside the 2%
near-median band, the two prices classify to mirror-image zones of the
nine-level scale. -/
theorem zone_symmetry (median ceiling flr t : ℝ) (hm : 0 < median)
    (hc : median < ceiling) (hf : flr < median)
    (hout1 : 0.02 * median < t * (ceiling - median))
    (hout2 : 0.02 * median < t * (median - flr)) :
    classify (median - t * (median - flr)) median ceiling flr =
      mirrorZone (classify (median + t * (ceiling - median)) median ceiling flr) := by
  have hcm : (0:ℝ) < ceiling - median := sub_pos.mpr hc
  have hmf : (0:ℝ) < median - flr := sub_pos.mpr hf
  have h02 : (0:ℝ) < 0.02 * median := by positivity
  have ht : 0 < t := by
    by_contra hneg
    push_neg at hneg
    have : t * (ceiling - median) ≤ 0 := mul_nonpos_of_nonpos_of_nonneg hneg hcm.le
    linarith
  have hta : (0:ℝ) < t * (ceiling - median) := mul_pos ht hcm
  have htb : (0:ℝ) < t * (median - flr) := mul_pos ht hmf
  have hcomm : median * 0.02 = 0.02 * median := mul_comm _ _
  unfold classify
  dsimp only
  have ea : median + t * (ceiling - median) - median = t * (ceiling - median) := by ring
  have eb : median - t * (median - flr) - median = -(t * (median - flr)) := by ring
  rw [ea, eb, abs_neg, abs_of_pos hta, abs_of_pos htb]
  rw [if_neg (not_le.mpr (by linarith : median * 0.02 < t * (median - flr))),
    if_neg (not_le.mpr (by linarith : median * 0.02 < t * (ceiling - median)))]
  rw [if_neg (not_le.mpr (by linarith : median - t * (median - flr) < median)),
    if_pos (by linarith : median + t * (ceiling - median) ≥ median)]
  rw [if_pos hmf, if_pos hcm]
  have fb : median - (median - t * (median - flr)) = t * (median - flr) := by ring
  rw [fb, mul_div_assoc, div_self hmf.ne', mul_one, mul_div_assoc, div_self hcm.ne',
    mul_one]
  rcases le_or_lt (0.575:ℝ) t with h5 | h5
  · rw [if_pos h5, if_pos h5]; rfl
  · rw [if_neg (not_le.mpr h5), if_neg (not_le.mpr h5)]
    rcases le_or_lt (0.29:ℝ) t with h2 | h2
    · rw [if_pos h2, if_pos h2]; rfl
    · rw [if_neg (not_le.mpr h2), if_neg (not_le.mpr h2)]; rfl

/-- Witness for C7: band (floor, median, ceiling) = (50, 100, 200) and
relative distance t = 1. -/
theorem zone_symmetry_witness :
    (0:ℝ) < 100 ∧ (100:ℝ) < 200 ∧ (50:ℝ) < 100 ∧
    (0.02:ℝ) * 100 < 1 * (200 - 100) ∧ (0.02:ℝ) * 100 < 1 * (100 - 50) ∧
    classify (100 - 1 * (100 - 50)) 100 200 50 =
      mirrorZone (classify (100 + 1 * (200 - 100)) 100 200 50) :=
  ⟨by norm_num, by norm_num, by norm_num, by norm_num, by norm_num,
    zone_symmetry 100 200 50 1 (by norm_num) (by norm_num) (by norm_num)
      (by norm_num) (by norm_num)⟩

/-! ## Claim C8: projector -/

/-- C8: for every non-empty most-recent-first row sequence, the smoothed
drift is the arithmetic mean of the `step` values of the first
`min(30, length)` rows — with fewer than 30 rows it averages exactly the
available values, without failing — and the fixed-offset (+4w) estimate
equals the most recent row's `median` plus that drift times 30 (the baseline
flowing through the globals written by `display_public`). -/
theorem projector_graceful (rows : List PiCycleData) (h : rows ≠ []) :
    average_top_steps rows =
      (∑ i ∈ Finset.range (min 30 rows.length), (rows.getD i default).step) /
        (min 30 rows.length) ∧
    (rows.length < 30 →
      average_top_steps rows =
        (∑ i ∈ Finset.range rows.length, (rows.getD i default).step) / rows.length) ∧
    predicted_price_4w (display_public_globals init_globals rows) rows =
      (rows.getD 0 default).median + average_top_steps rows * 30 := by
  have hpos : 0 < min 30 rows.length := by
    have := List.length_pos.mpr h
    omega
  have h1 : average_top_steps rows =
      (∑ i ∈ Finset.range (min 30 rows.length), (rows.getD i default).step) /
        (min 30 rows.length) := by
    unfold average_top_steps
    rw [if_pos hpos]
  refine ⟨h1, fun hlt => ?_, ?_⟩
  · rw [h1, Nat.min_eq_right (Nat.le_of_lt hlt)]
  · obtain ⟨r, rs, rfl⟩ := List.exists_cons_of_ne_nil h
    unfold predicted_price_4w
    simp only [display_public_globals, List.getD_cons_zero]

/-- Witness for C8: a single-row input (fewer rows than the configured 30). -/
theorem projector_graceful_witness :
    ([({ median := 50, step := 2 } : PiCycleData)] : List PiCycleData) ≠ [] ∧
    (average_top_steps [({ median := 50, step := 2 } : PiCycleData)] =
      (∑ i ∈ Finset.range (min 30 ([({ median := 50, step := 2 } : PiCycleData)] :
          List PiCycleData).length),
        (([({ median := 50, step := 2 } : PiCycleData)] : List PiCycleData).getD i
          default).step) /
        (min 30 ([({ median := 50, step := 2 } : PiCycleData)] : List PiCycleData).length) ∧
     (([({ median := 50, step := 2 } : PiCycleData)] : List PiCycleData).length < 30 →
      average_top_steps [({ median := 50, step := 2 } : PiCycleData)] =
        (∑ i ∈ Finset.range ([({ median := 50, step := 2 } : PiCycleData)] :
            List PiCycleData).length,
          (([({ median := 50, step := 2 } : PiCycleData)] : List PiCycleData).getD i
            default).step) /
          ([({ median := 50, step := 2 } : PiCycleData)] : List PiCycleData).length) ∧
     predicted_price_4w
        (display_public_globals init_globals [({ median := 50, step := 2 } : PiCycleData)])
        [({ median := 50, step := 2 } : PiCycleData)] =
      (([({ median := 50, step := 2 } : PiCycleData)] : List PiCycleData).getD 0
        default).median +
        average_top_steps [({ median := 50, step := 2 } : PiCycleData)] * 30) :=
  ⟨List.cons_ne_nil _ _,
    projector_graceful [({ median := 50, step := 2 } : PiCycleData)] (List.cons_ne_nil _ _)⟩

end PiCycle
